import Mathlib

/-!
Verification of the `gpudriver` syslog health-monitor handler.

The handler scans syslog lines for the nvidia-modeset GPU driver error
signature

  nvidia-modeset: ERROR: GPU:(\d+): Error while waiting for GPU progress:
  (0x[0-9a-fA-F:]+)\s+(\d+:\d+:\d+:\d+)

and, on a match, emits exactly one fatal health event recommending a
bare-metal restart.  The regular expression is embedded below as an
explicit deterministic matcher: every repetition in the pattern is a
greedy character-class run whose class is disjoint from the character
that must follow it, so Go's leftmost-first matching coincides with
plain greedy scanning from each start position, leftmost start first.
-/

namespace GpuDriver

/-- Character class `\d` of the pattern (ASCII digits, as in RE2). -/
def isDigitC (c : Char) : Bool := '0' ≤ c && c ≤ '9'

/-- Hexadecimal digit: `[0-9a-fA-F]`. -/
def isHexC (c : Char) : Bool := isDigitC c || ('a' ≤ c && c ≤ 'f') || ('A' ≤ c && c ≤ 'F')

/-- Character class `[0-9a-fA-F:]` of the error-code group. -/
def isHexColonC (c : Char) : Bool := isHexC c || c = ':'

/-- Character class `\s` as implemented by RE2: `[\t\n\f\r ]`. -/
def isSpaceC (c : Char) : Bool :=
  c = ' ' || c = '\t' || c = '\n' || c = '\x0c' || c = '\r'

/-- Match a literal character sequence at the head of the input,
returning the remainder. -/
def litStr : List Char → List Char → Option (List Char)
  | [], cs => some cs
  | _ :: _, [] => none
  | p :: ps, c :: cs => if c = p then litStr ps cs else none

/-- Greedy `q+`: take the maximal nonempty run of characters satisfying
`q`, returning the run and the remainder; fail if the run is empty. -/
def take1 (q : Char → Bool) (cs : List Char) : Option (List Char × List Char) :=
  match cs.takeWhile q with
  | [] => none
  | t₀ :: t => some (t₀ :: t, cs.dropWhile q)

/-- Literal head of the pattern. -/
def lit1 : List Char := "nvidia-modeset: ERROR: GPU:".data

/-- Literal middle of the pattern. -/
def lit2 : List Char := ": Error while waiting for GPU progress: ".data

/-- Match the whole pattern starting exactly at the head of `cs`,
returning the three capture groups (GPU index, error code, detail
tuple).  The pattern has no alternation and every repetition class is
disjoint from its successor, so this greedy matcher is equivalent to
the regexp engine at this start position. -/
def matchAt (cs : List Char) : Option (List Char × List Char × List Char) := do
  let r0 ← litStr lit1 cs
  let (g1, r1) ← take1 isDigitC r0
  let r2 ← litStr lit2 r1
  let r3 ← litStr ['0', 'x'] r2
  let (hx, r4) ← take1 isHexColonC r3
  let (_, r5) ← take1 isSpaceC r4
  let (d1, r6) ← take1 isDigitC r5
  let r7 ← litStr [':'] r6
  let (d2, r8) ← take1 isDigitC r7
  let r9 ← litStr [':'] r8
  let (d3, r10) ← take1 isDigitC r9
  let r11 ← litStr [':'] r10
  let (d4, _) ← take1 isDigitC r11
  return (g1, '0' :: 'x' :: hx, d1 ++ ':' :: d2 ++ ':' :: d3 ++ ':' :: d4)

/-- Unanchored leftmost search, as `regexp.FindStringSubmatch`: try the
pattern at every start position from the left and return the first
success (`none` when no position matches). -/
def findIn : List Char → Option (List Char × List Char × List Char)
  | [] => none
  | c :: cs =>
    match matchAt (c :: cs) with
    | some r => some r
    | none => findIn cs

/-- `gpuDriverErrorEvent`: a parsed GPU driver error (capture groups
plus the original line). -/
structure gpuDriverErrorEvent where
  gpuID : String
  errorCode : String
  errorDetails : String
  message : String
deriving DecidableEq, Repr

/-- `GPUDriverErrorHandler`: the stateless handler configuration. -/
structure GPUDriverErrorHandler where
  nodeName : String
  defaultAgentName : String
  defaultComponentClass : String
  checkName : String
deriving DecidableEq, Repr

/-- `pb.RecommendedAction` (the constructors the handler can mention). -/
inductive RecommendedAction where
  | NONE
  | RESTART_BM
deriving DecidableEq, Repr

/-- `pb.Entity`. -/
structure Entity where
  entityType : String
  entityValue : String
deriving DecidableEq, Repr

/-- `pb.HealthEvent`; the generated timestamp is modelled as a `Nat`
supplied by the caller (the code reads the wall clock). -/
structure HealthEvent where
  version : Nat
  agent : String
  checkName : String
  componentClass : String
  generatedTimestamp : Nat
  entitiesImpacted : List Entity
  message : String
  isFatal : Bool
  isHealthy : Bool
  nodeName : String
  recommendedAction : RecommendedAction
  errorCode : List String
deriving DecidableEq, Repr

/-- `pb.HealthEvents`. -/
structure HealthEvents where
  version : Nat
  events : List HealthEvent
deriving DecidableEq, Repr

/-- `NewGPUDriverErrorHandler`: builds the handler; the error result is
always empty. -/
def NewGPUDriverErrorHandler (nodeName defaultAgentName defaultComponentClass checkName : String) :
    GPUDriverErrorHandler × Option String :=
  (⟨nodeName, defaultAgentName, defaultComponentClass, checkName⟩, none)

/-- `parseGPUDriverError`: run the pattern over the line; on a match
(all three groups present) build the parsed event, else `nil`. -/
def parseGPUDriverError (_h : GPUDriverErrorHandler) (message : String) :
    Option gpuDriverErrorEvent :=
  match findIn message.data with
  | none => none
  | some (g1, g2, g3) => some ⟨⟨g1⟩, ⟨g2⟩, ⟨g3⟩, message⟩

/-- The `fmt.Sprintf` composition of the event message in
`createHealthEventFromError`. -/
def composeMessage (event : gpuDriverErrorEvent) : String :=
  "GPU " ++ event.gpuID ++ ": nvidia-modeset driver error detected. Error code: " ++
    event.errorCode ++ ", Details: " ++ event.errorDetails ++
    ". This indicates the GPU driver is not coming up properly. " ++
    "nvidia-driver-daemonset and device-plugin daemonset may be crashing. " ++
    "Original message: " ++ event.message

/-- `createHealthEventFromError`: wrap the parsed error into a
single-event `HealthEvents`; `now` stands for `time.Now()`. -/
def createHealthEventFromError (h : GPUDriverErrorHandler) (event : gpuDriverErrorEvent)
    (now : Nat) : HealthEvents :=
  { version := 1
    events := [{
      version := 1
      agent := h.defaultAgentName
      checkName := h.checkName
      componentClass := h.defaultComponentClass
      generatedTimestamp := now
      entitiesImpacted := [⟨"GPU", event.gpuID⟩]
      message := composeMessage event
      isFatal := true
      isHealthy := false
      nodeName := h.nodeName
      recommendedAction := RecommendedAction.RESTART_BM
      errorCode := ["GPU_DRIVER_ERROR"] }] }

/-- `ProcessLine`: parse the line; no match means `(nil, nil)`, a match
means one health-event container and a `nil` error. -/
def ProcessLine (h : GPUDriverErrorHandler) (message : String) (now : Nat) :
    Option HealthEvents × Option String :=
  match parseGPUDriverError h message with
  | none => (none, none)
  | some event => (some (createHealthEventFromError h event now), none)

/-- State-passing embedding of the `ProcessLine` method: the body reads
the receiver's fields and never assigns to them, so the handler state
it returns is the one it was given. -/
def ProcessLineSt (h : GPUDriverErrorHandler) (message : String) (now : Nat) :
    GPUDriverErrorHandler × (Option HealthEvents × Option String) :=
  (h, ProcessLine h message now)

/-- Run a sequence of `ProcessLine` calls, threading the handler state
through the calls and collecting the outputs. -/
def runLines (h : GPUDriverErrorHandler) :
    List (String × Nat) → GPUDriverErrorHandler × List (Option HealthEvents × Option String)
  | [] => (h, [])
  | (m, t) :: rest =>
    let s := ProcessLineSt h m t
    let r := runLines s.1 rest
    (r.1, s.2 :: r.2)

/-! ### Properties of the matcher building blocks -/

theorem litStr_spec : ∀ (p cs r : List Char), litStr p cs = some r → cs = p ++ r
  | [], cs, r, h => by simp only [litStr, Option.some.injEq] at h; simpa using h
  | _ :: _, [], _, h => by simp [litStr] at h
  | p :: ps, c :: cs, r, h => by
    by_cases hc : c = p
    · simp only [litStr, if_pos hc] at h
      simpa [hc] using congrArg (c :: ·) (litStr_spec ps cs r h)
    · simp [litStr, hc] at h

theorem litStr_append : ∀ (p cs r s : List Char), litStr p cs = some r →
    litStr p (cs ++ s) = some (r ++ s)
  | [], cs, r, s, h => by simp [litStr] at h ⊢; simp [h]
  | _ :: _, [], _, _, h => by simp [litStr] at h
  | p :: ps, c :: cs, r, s, h => by
    by_cases hc : c = p
    · simp only [litStr, if_pos hc] at h ⊢
      exact litStr_append ps cs r s h
    · simp [litStr, hc] at h

theorem litStr_cons_ne_nil {p : Char} {ps cs r : List Char}
    (h : litStr (p :: ps) cs = some r) : cs ≠ [] := by
  intro hnil; subst hnil; simp [litStr] at h

theorem take1_spec {q : Char → Bool} {cs t r : List Char}
    (h : take1 q cs = some (t, r)) :
    cs.takeWhile q = t ∧ cs.dropWhile q = r ∧ t ≠ [] := by
  unfold take1 at h
  cases htw : cs.takeWhile q with
  | nil => rw [htw] at h; simp at h
  | cons a l =>
    rw [htw] at h
    simp only [Option.some.injEq, Prod.mk.injEq] at h
    exact ⟨h.1, h.2, by simp [← h.1]⟩

theorem take1_decomp {q : Char → Bool} {cs t r : List Char}
    (h : take1 q cs = some (t, r)) :
    cs = t ++ r ∧ t ≠ [] ∧ (∀ c ∈ t, q c) := by
  obtain ⟨ht, hr, hne⟩ := take1_spec h
  refine ⟨by rw [← ht, ← hr]; exact (List.takeWhile_append_dropWhile q cs).symm, hne, ?_⟩
  intro c hc
  exact List.mem_takeWhile_imp (ht ▸ hc)

theorem take1_input_ne_nil {q : Char → Bool} {cs t r : List Char}
    (h : take1 q cs = some (t, r)) : cs ≠ [] := by
  intro hnil; subst hnil; simp [take1] at h

theorem dropWhile_head_neg {q : Char → Bool} :
    ∀ {cs : List Char} {c : Char} {r' : List Char},
      List.dropWhile q cs = c :: r' → q c = false := by
  intro cs
  induction cs with
  | nil => intro c r' h; simp [List.dropWhile] at h
  | cons a l ih =>
    intro c r' h
    by_cases ha : q a
    · rw [List.dropWhile_cons_of_pos ha] at h; exact ih h
    · rw [List.dropWhile_cons_of_neg ha] at h
      obtain ⟨rfl, -⟩ := List.cons.inj h
      simpa using ha

theorem take1_append_of_rest_ne_nil {q : Char → Bool} {cs t r : List Char}
    (h : take1 q cs = some (t, r)) (hr : r ≠ []) (s : List Char) :
    take1 q (cs ++ s) = some (t, r ++ s) := by
  obtain ⟨ht, hdr, hne⟩ := take1_spec h
  obtain ⟨hcs, _, hmem⟩ := take1_decomp h
  obtain ⟨c, r', rfl⟩ : ∃ c r', r = c :: r' := by
    cases r with
    | nil => exact absurd rfl hr
    | cons c r' => exact ⟨c, r', rfl⟩
  have hc : q c = false := dropWhile_head_neg hdr
  have hcss : cs ++ s = t ++ (c :: (r' ++ s)) := by rw [hcs]; simp
  rw [hcss]
  unfold take1
  rw [List.takeWhile_append_of_pos hmem, List.dropWhile_append_of_pos hmem,
    List.takeWhile_cons_of_neg (by simp [hc]), List.dropWhile_cons_of_neg (by simp [hc])]
  cases t with
  | nil => exact absurd rfl hne
  | cons a l => simp

theorem take1_append_some {q : Char → Bool} {cs t r : List Char}
    (h : take1 q cs = some (t, r)) (s : List Char) :
    ∃ t' r', take1 q (cs ++ s) = some (t', r') := by
  obtain ⟨hcs, hne, hmem⟩ := take1_decomp h
  obtain ⟨a, l, rfl⟩ : ∃ a l, t = a :: l := by
    cases t with
    | nil => exact absurd rfl hne
    | cons a l => exact ⟨a, l, rfl⟩
  have ha : q a = true := hmem a (by simp)
  have : cs ++ s = a :: (l ++ r ++ s) := by rw [hcs]; simp
  rw [this]
  unfold take1
  rw [List.takeWhile_cons_of_pos ha]
  exact ⟨_, _, rfl⟩

theorem litStr_input_ne_nil {p cs r : List Char} (hp : p ≠ [])
    (h : litStr p cs = some r) : cs ≠ [] := by
  cases p with
  | nil => exact absurd rfl hp
  | cons a l => exact litStr_cons_ne_nil h

/-- Anatomy of a successful anchored match: the three capture groups
have the shapes prescribed by the pattern and occur in the input in
pattern order. -/
theorem matchAt_spec {cs g1 g2 g3 : List Char}
    (hm : matchAt cs = some (g1, g2, g3)) :
    ∃ hx sp d1 d2 d3 d4 rest : List Char,
      g2 = '0' :: 'x' :: hx ∧
      g3 = d1 ++ ':' :: d2 ++ ':' :: d3 ++ ':' :: d4 ∧
      cs = lit1 ++ g1 ++ lit2 ++ g2 ++ sp ++ g3 ++ rest ∧
      g1 ≠ [] ∧ (∀ c ∈ g1, isDigitC c) ∧
      hx ≠ [] ∧ (∀ c ∈ hx, isHexColonC c) ∧
      sp ≠ [] ∧ (∀ c ∈ sp, isSpaceC c) ∧
      d1 ≠ [] ∧ (∀ c ∈ d1, isDigitC c) ∧
      d2 ≠ [] ∧ (∀ c ∈ d2, isDigitC c) ∧
      d3 ≠ [] ∧ (∀ c ∈ d3, isDigitC c) ∧
      d4 ≠ [] ∧ (∀ c ∈ d4, isDigitC c) := by
  simp only [matchAt, bind, Option.bind_eq_some, pure, Option.some.injEq, Prod.mk.injEq] at hm
  obtain ⟨r0, h0, ⟨g1', r1⟩, h1, r2, h2, r3, h3, ⟨hx, r4⟩, h4, ⟨sp, r5⟩, h5,
    ⟨d1, r6⟩, h6, r7, h7, ⟨d2, r8⟩, h8, r9, h9, ⟨d3, r10⟩, h10, r11, h11,
    ⟨d4, r12⟩, h12, hg⟩ := hm
  obtain ⟨hga, hgb, hgc⟩ := hg
  subst hga; subst hgb; subst hgc
  have e0 := litStr_spec _ _ _ h0
  obtain ⟨e1, hn1, hd1⟩ := take1_decomp h1
  have e2 := litStr_spec _ _ _ h2
  have e3 := litStr_spec _ _ _ h3
  obtain ⟨e4, hn4, hd4⟩ := take1_decomp h4
  obtain ⟨e5, hn5, hd5⟩ := take1_decomp h5
  obtain ⟨e6, hn6, hd6⟩ := take1_decomp h6
  have e7 := litStr_spec _ _ _ h7
  obtain ⟨e8, hn8, hd8⟩ := take1_decomp h8
  have e9 := litStr_spec _ _ _ h9
  obtain ⟨e10, hn10, hd10⟩ := take1_decomp h10
  have e11 := litStr_spec _ _ _ h11
  obtain ⟨e12, hn12, hd12⟩ := take1_decomp h12
  subst e0 e1 e2 e3 e4 e5 e6 e7 e8 e9 e10 e11 e12
  refine ⟨hx, sp, d1, d2, d3, d4, r12, rfl, rfl, ?_, hn1, hd1, hn4, hd4, hn5, hd5,
    hn6, hd6, hn8, hd8, hn10, hd10, hn12, hd12⟩
  simp [List.append_assoc]

/-- Extending the input to the right of a successful anchored match
leaves the matcher successful (possibly with a longer final digit
run). -/
theorem matchAt_append {cs : List Char} {g : List Char × List Char × List Char}
    (s : List Char) (hm : matchAt cs = some g) :
    ∃ g', matchAt (cs ++ s) = some g' := by
  obtain ⟨g1, g2, g3⟩ := g
  simp only [matchAt, bind, Option.bind_eq_some, pure, Option.some.injEq, Prod.mk.injEq] at hm
  obtain ⟨r0, h0, ⟨g1', r1⟩, h1, r2, h2, r3, h3, ⟨hx, r4⟩, h4, ⟨sp, r5⟩, h5,
    ⟨d1, r6⟩, h6, r7, h7, ⟨d2, r8⟩, h8, r9, h9, ⟨d3, r10⟩, h10, r11, h11,
    ⟨d4, r12⟩, h12, hg⟩ := hm
  dsimp only at h2 h5 h6 h7 h9 h11
  have l0 := litStr_append _ _ _ s h0
  have l1 := take1_append_of_rest_ne_nil h1 (litStr_input_ne_nil (by decide) h2) s
  have l2 := litStr_append _ _ _ s h2
  have l3 := litStr_append _ _ _ s h3
  have l4 := take1_append_of_rest_ne_nil h4 (take1_input_ne_nil h5) s
  have l5 := take1_append_of_rest_ne_nil h5 (take1_input_ne_nil h6) s
  have l6 := take1_append_of_rest_ne_nil h6 (litStr_input_ne_nil (by decide) h7) s
  have l7 := litStr_append _ _ _ s h7
  have l8 := take1_append_of_rest_ne_nil h8 (litStr_input_ne_nil (by decide) h9) s
  have l9 := litStr_append _ _ _ s h9
  have l10 := take1_append_of_rest_ne_nil h10 (litStr_input_ne_nil (by decide) h11) s
  have l11 := litStr_append _ _ _ s h11
  obtain ⟨t', r', l12⟩ := take1_append_some h12 s
  refine ⟨(g1', '0' :: 'x' :: hx, d1 ++ ':' :: d2 ++ ':' :: d3 ++ ':' :: t'), ?_⟩
  simp only [matchAt, bind, l0, Option.some_bind, l1, l2, l3, l4, l5, l6, l7, l8, l9,
    l10, l11, l12, pure]

theorem matchAt_nil : matchAt [] = none := rfl

/-- If the pattern matches at some suffix, the leftmost search
succeeds. -/
theorem findIn_of_matchAt_suffix {t w : List Char} {g : List Char × List Char × List Char}
    (hm : matchAt t = some g) (hsuf : t <:+ w) : ∃ g', findIn w = some g' := by
  induction w with
  | nil =>
    have ht : t = [] := List.suffix_nil.mp hsuf
    rw [ht, matchAt_nil] at hm
    cases hm
  | cons c w' ih =>
    cases hma : matchAt (c :: w') with
    | some r => exact ⟨r, by simp [findIn, hma]⟩
    | none =>
      rcases List.suffix_cons_iff.mp hsuf with h | h
      · rw [h, hma] at hm; cases hm
      · obtain ⟨g', hg'⟩ := ih h
        exact ⟨g', by simp [findIn, hma, hg']⟩

/-- A successful leftmost search comes from an anchored match at some
suffix of the input. -/
theorem findIn_exists_suffix {w : List Char} {g : List Char × List Char × List Char}
    (hf : findIn w = some g) : ∃ t, t <:+ w ∧ matchAt t = some g := by
  induction w with
  | nil => simp [findIn] at hf
  | cons c w' ih =>
    cases hma : matchAt (c :: w') with
    | some r =>
      simp only [findIn, hma, Option.some.injEq] at hf
      exact ⟨c :: w', List.suffix_rfl, by rw [hma, hf]⟩
    | none =>
      simp only [findIn, hma] at hf
      obtain ⟨t, hsuf, hmt⟩ := ih hf
      exact ⟨t, hsuf.trans (List.suffix_cons c w'), hmt⟩

/-! ### Bridges between the parser, the handler, and the message -/

theorem parse_none_iff {h : GPUDriverErrorHandler} {msg : String} :
    parseGPUDriverError h msg = none ↔ findIn msg.data = none := by
  unfold parseGPUDriverError
  cases hF : findIn msg.data with
  | none => simp
  | some g => obtain ⟨g1, g2, g3⟩ := g; simp

theorem parse_some_elim {h : GPUDriverErrorHandler} {msg : String}
    {ev : gpuDriverErrorEvent} (hp : parseGPUDriverError h msg = some ev) :
    ∃ g1 g2 g3 : List Char, findIn msg.data = some (g1, g2, g3) ∧
      ev.gpuID = ⟨g1⟩ ∧ ev.errorCode = ⟨g2⟩ ∧ ev.errorDetails = ⟨g3⟩ ∧ ev.message = msg := by
  unfold parseGPUDriverError at hp
  cases hF : findIn msg.data with
  | none => rw [hF] at hp; cases hp
  | some g =>
    obtain ⟨g1, g2, g3⟩ := g
    rw [hF] at hp
    simp only [Option.some.injEq] at hp
    exact ⟨g1, g2, g3, rfl, by rw [← hp], by rw [← hp], by rw [← hp], by rw [← hp]⟩

theorem parse_some_of_findIn {h : GPUDriverErrorHandler} {msg : String}
    {g : List Char × List Char × List Char} (hF : findIn msg.data = some g) :
    ∃ ev, parseGPUDriverError h msg = some ev := by
  obtain ⟨g1, g2, g3⟩ := g
  exact ⟨_, by unfold parseGPUDriverError; rw [hF]⟩

/-- The `Sprintf` message, refined to separate each item of information
the message is specified to carry, in order. -/
theorem composeMessage_data (ev : gpuDriverErrorEvent) :
    (composeMessage ev).data =
      "GPU ".data ++ (ev.gpuID.data ++ (": ".data ++
        ("nvidia-modeset driver error detected".data ++ (". Error code: ".data ++
        (ev.errorCode.data ++ (", Details: ".data ++ (ev.errorDetails.data ++ (". ".data ++
        ("This indicates the GPU driver is not coming up properly. nvidia-driver-daemonset and device-plugin daemonset may be crashing.".data ++
        (" Original message: ".data ++ ev.message.data)))))))))) := by
  set_option maxRecDepth 4096 in
  simp only [composeMessage, String.data_append, List.append_assoc, List.cons_append,
    List.nil_append]

theorem contains_of_right {a y : List Char} (x : List Char) (h : a <:+: y) :
    a <:+: x ++ y :=
  h.trans (List.suffix_append x y).isInfix

/-- Erase the wall-clock field of an event (to compare runs up to the
generated timestamp). -/
def eraseTsEvent (e : HealthEvent) : HealthEvent := { e with generatedTimestamp := 0 }

/-- Erase the wall-clock fields of an event container. -/
def eraseTs (evs : HealthEvents) : HealthEvents :=
  { evs with events := evs.events.map eraseTsEvent }

/-! ### Concrete fixtures (the inputs used by the repository's tests) -/

def testHandler : GPUDriverErrorHandler := ⟨"test-node", "test-agent", "GPU", "test-check"⟩

def sampleLine : String :=
  "nvidia-modeset: ERROR: GPU:2: Error while waiting for GPU progress: 0x0000c77d:0 2:0:4048:4040"

def sampleEvent : gpuDriverErrorEvent := ⟨"2", "0x0000c77d:0", "2:0:4048:4040", sampleLine⟩

def otherLine : String := "nvidia-modeset: ERROR: GPU:0: Some other error"

def oddLine : String :=
  "nvidia-modeset: ERROR: GPU:1: Error while waiting for GPU progress: 0x:: 1:2:3:4"

def oddEvent : gpuDriverErrorEvent := ⟨"1", "0x::", "1:2:3:4", oddLine⟩

/-! ### The claims -/

/-- Claim C1: for every input line on which the pattern-matching step
succeeds, `ProcessLine` returns exactly one health event whose single
impacted entity has the GPU-index capture as its value, and whose
message contains the captured error-code string and the captured
detail tuple verbatim. -/
theorem claim_C1 (h : GPUDriverErrorHandler) (msg : String) (now : Nat)
    (ev : gpuDriverErrorEvent) (hp : parseGPUDriverError h msg = some ev) :
    ∃ e : HealthEvent,
      (ProcessLine h msg now).1 = some { version := 1, events := [e] } ∧
      e.entitiesImpacted = [{ entityType := "GPU", entityValue := ev.gpuID }] ∧
      ev.errorCode.data <:+: e.message.data ∧
      ev.errorDetails.data <:+: e.message.data := by
  unfold ProcessLine
  rw [hp]
  refine ⟨_, rfl, rfl, ?_, ?_⟩
  · show ev.errorCode.data <:+: (composeMessage ev).data
    rw [composeMessage_data]
    exact contains_of_right _ (contains_of_right _ (contains_of_right _ (contains_of_right _
      (contains_of_right _ ((List.prefix_append _ _).isInfix)))))
  · show ev.errorDetails.data <:+: (composeMessage ev).data
    rw [composeMessage_data]
    exact contains_of_right _ (contains_of_right _ (contains_of_right _ (contains_of_right _
      (contains_of_right _ (contains_of_right _ (contains_of_right _
        ((List.prefix_append _ _).isInfix)))))))

theorem claim_C1_witness :
    ∃ e : HealthEvent,
      (ProcessLine testHandler sampleLine 0).1 = some { version := 1, events := [e] } ∧
      e.entitiesImpacted = [{ entityType := "GPU", entityValue := sampleEvent.gpuID }] ∧
      sampleEvent.errorCode.data <:+: e.message.data ∧
      sampleEvent.errorDetails.data <:+: e.message.data :=
  claim_C1 testHandler sampleLine 0 sampleEvent (by rfl)


/-- Claim C2: every emitted health event has exactly one impacted
entity of type GPU and exactly one error-code tag, is fatal and
unhealthy, and recommends a bare-metal restart; no event is emitted
unless the pattern-matching step succeeded. -/
theorem claim_C2 (h : GPUDriverErrorHandler) (msg : String) (now : Nat) (evs : HealthEvents)
    (hp : (ProcessLine h msg now).1 = some evs) :
    parseGPUDriverError h msg ≠ none ∧
    ∃ e : HealthEvent, evs.events = [e] ∧
      (∃ v, e.entitiesImpacted = [{ entityType := "GPU", entityValue := v }]) ∧
      e.errorCode.length = 1 ∧ e.isFatal = true ∧ e.isHealthy = false ∧
      e.recommendedAction = RecommendedAction.RESTART_BM := by
  unfold ProcessLine at hp
  cases hP : parseGPUDriverError h msg with
  | none => rw [hP] at hp; cases hp
  | some ev =>
    rw [hP] at hp
    simp only [Option.some.injEq] at hp
    subst hp
    exact ⟨by simp, _, rfl, ⟨ev.gpuID, rfl⟩, rfl, rfl, rfl, rfl⟩

theorem claim_C2_witness :
    parseGPUDriverError testHandler sampleLine ≠ none ∧
    ∃ e : HealthEvent, (createHealthEventFromError testHandler sampleEvent 0).events = [e] ∧
      (∃ v, e.entitiesImpacted = [{ entityType := "GPU", entityValue := v }]) ∧
      e.errorCode.length = 1 ∧ e.isFatal = true ∧ e.isHealthy = false ∧
      e.recommendedAction = RecommendedAction.RESTART_BM :=
  claim_C2 testHandler sampleLine 0 (createHealthEventFromError testHandler sampleEvent 0)
    (by rfl)

/-- Claim C3: for every input line, `ProcessLine` never returns a
failure: the error result is always empty and the value is either
nothing or a single container holding exactly one event. -/
theorem claim_C3 (h : GPUDriverErrorHandler) (msg : String) (now : Nat) :
    (ProcessLine h msg now).2 = none ∧
    ((ProcessLine h msg now).1 = none ∨
      ∃ evs, (ProcessLine h msg now).1 = some evs ∧ evs.events.length = 1) := by
  unfold ProcessLine
  cases parseGPUDriverError h msg with
  | none => exact ⟨rfl, Or.inl rfl⟩
  | some ev => exact ⟨rfl, Or.inr ⟨_, rfl, rfl⟩⟩

/-- Claim C5: on every successful match the event message is composed
of, verbatim and in this order: the GPU index, the classification
text, the error code, the detail tuple, the fixed explanatory
sentence, and finally the original raw line. -/
theorem claim_C5 (h : GPUDriverErrorHandler) (msg : String) (now : Nat)
    (ev : gpuDriverErrorEvent) (hp : parseGPUDriverError h msg = some ev) :
    ∃ e : HealthEvent, (ProcessLine h msg now).1 = some { version := 1, events := [e] } ∧
      e.message.data =
        "GPU ".data ++ (ev.gpuID.data ++ (": ".data ++
          ("nvidia-modeset driver error detected".data ++ (". Error code: ".data ++
          (ev.errorCode.data ++ (", Details: ".data ++ (ev.errorDetails.data ++ (". ".data ++
          ("This indicates the GPU driver is not coming up properly. nvidia-driver-daemonset and device-plugin daemonset may be crashing.".data ++
          (" Original message: ".data ++ msg.data)))))))))) := by
  obtain ⟨g1, g2, g3, hF, hgId, hcode, hdet, hmsg⟩ := parse_some_elim hp
  unfold ProcessLine
  rw [hp]
  refine ⟨_, rfl, ?_⟩
  show (composeMessage ev).data = _
  rw [composeMessage_data, hmsg]

theorem claim_C5_witness :
    ∃ e : HealthEvent,
      (ProcessLine testHandler sampleLine 0).1 = some { version := 1, events := [e] } ∧
      e.message.data =
        "GPU ".data ++ (sampleEvent.gpuID.data ++ (": ".data ++
          ("nvidia-modeset driver error detected".data ++ (". Error code: ".data ++
          (sampleEvent.errorCode.data ++ (", Details: ".data ++ (sampleEvent.errorDetails.data ++ (". ".data ++
          ("This indicates the GPU driver is not coming up properly. nvidia-driver-daemonset and device-plugin daemonset may be crashing.".data ++
          (" Original message: ".data ++ sampleLine.data)))))))))) :=
  claim_C5 testHandler sampleLine 0 sampleEvent (by rfl)

/-- Claim C7: classification is deterministic: two invocations on the
same line agree on match/no-match, on the error result, and on the
events up to the generated-timestamp field. -/
theorem claim_C7 (h : GPUDriverErrorHandler) (msg : String) (t1 t2 : Nat) :
    ((ProcessLine h msg t1).1 = none ↔ (ProcessLine h msg t2).1 = none) ∧
    Option.map eraseTs (ProcessLine h msg t1).1 = Option.map eraseTs (ProcessLine h msg t2).1 ∧
    (ProcessLine h msg t1).2 = (ProcessLine h msg t2).2 := by
  unfold ProcessLine
  cases parseGPUDriverError h msg with
  | none => simp
  | some ev => simp [eraseTs, eraseTsEvent, createHealthEventFromError]

/-- Claim C8: constructing the handler always succeeds with an empty
error and performs no validation: the fields are stored as given. -/
theorem claim_C8 (nodeName agentName componentClass checkName : String) :
    NewGPUDriverErrorHandler nodeName agentName componentClass checkName =
      ({ nodeName := nodeName, defaultAgentName := agentName,
         defaultComponentClass := componentClass, checkName := checkName }, none) := rfl


/-- Claim C4: a line that begins with the literal
`nvidia-modeset: ERROR: GPU:<digits>:` but on which the full signature
(all three capture groups) nowhere matches yields no event. -/
theorem claim_C4 (h : GPUDriverErrorHandler) (msg : String) (now : Nat) (ds : List Char)
    (_hne : ds ≠ []) (_hdig : ∀ c ∈ ds, isDigitC c)
    (_hpre : (lit1 ++ ds ++ [':']) <+: msg.data)
    (hnm : findIn msg.data = none) :
    ProcessLine h msg now = (none, none) := by
  unfold ProcessLine
  rw [parse_none_iff.mpr hnm]

theorem claim_C4_witness : ProcessLine testHandler otherLine 0 = (none, none) :=
  claim_C4 testHandler otherLine 0 ['0'] (by decide) (by decide)
    ⟨" Some other error".data, by rfl⟩ (by rfl)

theorem runLines_config (h : GPUDriverErrorHandler) (lines : List (String × Nat)) :
    (runLines h lines).1 = h ∧
    (runLines h lines).2 = lines.map fun p => ProcessLine h p.1 p.2 := by
  induction lines with
  | nil => exact ⟨rfl, rfl⟩
  | cons p rest ih =>
    obtain ⟨m, t⟩ := p
    simp [runLines, ProcessLineSt, ih.1, ih.2]

/-- Claim C9: the handler configuration is immutable across any
sequence of `ProcessLine` calls, each call's output depends only on
the constructed handler and that call's line, and every emitted event
carries exactly the configuration values bound at construction. -/
theorem claim_C9 (a b c d : String) (lines : List (String × Nat)) (msg : String) (now : Nat)
    (evs : HealthEvents) (e : HealthEvent)
    (_hmem : (msg, now) ∈ lines)
    (hev : (ProcessLine (NewGPUDriverErrorHandler a b c d).1 msg now).1 = some evs)
    (he : e ∈ evs.events) :
    (runLines (NewGPUDriverErrorHandler a b c d).1 lines).1 =
      (NewGPUDriverErrorHandler a b c d).1 ∧
    (runLines (NewGPUDriverErrorHandler a b c d).1 lines).2 =
      lines.map (fun p => ProcessLine (NewGPUDriverErrorHandler a b c d).1 p.1 p.2) ∧
    e.agent = b ∧ e.checkName = d ∧ e.componentClass = c ∧ e.nodeName = a := by
  refine ⟨(runLines_config _ _).1, (runLines_config _ _).2, ?_⟩
  unfold ProcessLine at hev
  cases hP : parseGPUDriverError (NewGPUDriverErrorHandler a b c d).1 msg with
  | none => rw [hP] at hev; cases hev
  | some ev =>
    rw [hP] at hev
    simp only [Option.some.injEq] at hev
    subst hev
    simp only [createHealthEventFromError, List.mem_singleton] at he
    subst he
    exact ⟨rfl, rfl, rfl, rfl⟩

def sampleEmitted : HealthEvent :=
  { version := 1, agent := "test-agent", checkName := "test-check", componentClass := "GPU",
    generatedTimestamp := 0,
    entitiesImpacted := [{ entityType := "GPU", entityValue := "2" }],
    message := composeMessage sampleEvent,
    isFatal := true, isHealthy := false, nodeName := "test-node",
    recommendedAction := RecommendedAction.RESTART_BM,
    errorCode := ["GPU_DRIVER_ERROR"] }

theorem claim_C9_witness :
    (runLines (NewGPUDriverErrorHandler "test-node" "test-agent" "GPU" "test-check").1
        [(sampleLine, 0)]).1 =
      (NewGPUDriverErrorHandler "test-node" "test-agent" "GPU" "test-check").1 ∧
    (runLines (NewGPUDriverErrorHandler "test-node" "test-agent" "GPU" "test-check").1
        [(sampleLine, 0)]).2 =
      [(sampleLine, 0)].map (fun p =>
        ProcessLine (NewGPUDriverErrorHandler "test-node" "test-agent" "GPU" "test-check").1
          p.1 p.2) ∧
    sampleEmitted.agent = "test-agent" ∧ sampleEmitted.checkName = "test-check" ∧
    sampleEmitted.componentClass = "GPU" ∧ sampleEmitted.nodeName = "test-node" :=
  claim_C9 "test-node" "test-agent" "GPU" "test-check" [(sampleLine, 0)] sampleLine 0
    (createHealthEventFromError testHandler sampleEvent 0) sampleEmitted
    (List.mem_singleton.mpr rfl) (by rfl) (List.mem_singleton.mpr (by rfl))

/-- Claim C10: the signature is recognized anywhere within the line:
if `ProcessLine` emits an event on a line, it also emits an event on
that line wrapped in arbitrary leading and trailing text. -/
theorem claim_C10 (h : GPUDriverErrorHandler) (msg p s : String) (now : Nat)
    (evs : HealthEvents)
    (hev : (ProcessLine h msg now).1 = some evs) :
    ∃ evs', (ProcessLine h (p ++ msg ++ s) now).1 = some evs' := by
  have hF : ∃ g, findIn msg.data = some g := by
    unfold ProcessLine at hev
    cases hP : parseGPUDriverError h msg with
    | none => rw [hP] at hev; cases hev
    | some ev =>
      obtain ⟨g1, g2, g3, hFi, -, -, -, -⟩ := parse_some_elim hP
      exact ⟨(g1, g2, g3), hFi⟩
  obtain ⟨g, hFg⟩ := hF
  obtain ⟨t, hsuf, hmt⟩ := findIn_exists_suffix hFg
  obtain ⟨g', hmt'⟩ := matchAt_append s.data hmt
  have hsuf' : t ++ s.data <:+ (p ++ msg ++ s).data := by
    have hdata : (p ++ msg ++ s).data = p.data ++ (msg.data ++ s.data) := by
      simp [String.data_append, List.append_assoc]
    rw [hdata]
    obtain ⟨u, hu⟩ := hsuf
    have h1 : t ++ s.data <:+ msg.data ++ s.data := ⟨u, by rw [← hu]; simp⟩
    exact h1.trans (List.suffix_append _ _)
  obtain ⟨g'', hfind⟩ := findIn_of_matchAt_suffix hmt' hsuf'
  obtain ⟨ev', hev'⟩ := parse_some_of_findIn (h := h) hfind
  exact ⟨_, by unfold ProcessLine; rw [hev']⟩

theorem claim_C10_witness :
    ∃ evs', (ProcessLine testHandler ("pre " ++ sampleLine ++ " post") 0).1 = some evs' :=
  claim_C10 testHandler sampleLine "pre " " post" 0
    (createHealthEventFromError testHandler sampleEvent 0) (by rfl)


/-- Claim C6 (amended): a successful match carries three ordered
fields: a nonempty digit string, `0x` followed by a nonempty run of
hexadecimal digits and/or colons, and a four-field colon-separated
digit tuple. -/
theorem claim_C6_theorem (msg : String) (g1 g2 g3 : List Char)
    (hF : findIn msg.data = some (g1, g2, g3)) :
    (g1 ≠ [] ∧ ∀ c ∈ g1, isDigitC c) ∧
    (∃ hx, g2 = '0' :: 'x' :: hx ∧ hx ≠ [] ∧ ∀ c ∈ hx, isHexColonC c) ∧
    (∃ d1 d2 d3 d4, g3 = d1 ++ ':' :: d2 ++ ':' :: d3 ++ ':' :: d4 ∧
      (d1 ≠ [] ∧ ∀ c ∈ d1, isDigitC c) ∧ (d2 ≠ [] ∧ ∀ c ∈ d2, isDigitC c) ∧
      (d3 ≠ [] ∧ ∀ c ∈ d3, isDigitC c) ∧ (d4 ≠ [] ∧ ∀ c ∈ d4, isDigitC c)) := by
  obtain ⟨t, hsuf, hmt⟩ := findIn_exists_suffix hF
  obtain ⟨hx, sp, d1, d2, d3, d4, rest, hg2, hg3, hcs, hn1, hd1, hnx, hdx, hnsp, hdsp,
    hn21, hd21, hn22, hd22, hn23, hd23, hn24, hd24⟩ := matchAt_spec hmt
  exact ⟨⟨hn1, hd1⟩, ⟨hx, hg2, hnx, hdx⟩,
    ⟨d1, d2, d3, d4, hg3, ⟨hn21, hd21⟩, ⟨hn22, hd22⟩, ⟨hn23, hd23⟩, ⟨hn24, hd24⟩⟩⟩

theorem claim_C6_witness :
    ((['2'] : List Char) ≠ [] ∧ ∀ c ∈ (['2'] : List Char), isDigitC c) ∧
    (∃ hx, ['0', 'x', '0', '0', '0', '0', 'c', '7', '7', 'd', ':', '0'] = '0' :: 'x' :: hx ∧
      hx ≠ [] ∧ ∀ c ∈ hx, isHexColonC c) ∧
    (∃ d1 d2 d3 d4, ['2', ':', '0', ':', '4', '0', '4', '8', ':', '4', '0', '4', '0'] =
        d1 ++ ':' :: d2 ++ ':' :: d3 ++ ':' :: d4 ∧
      (d1 ≠ [] ∧ ∀ c ∈ d1, isDigitC c) ∧ (d2 ≠ [] ∧ ∀ c ∈ d2, isDigitC c) ∧
      (d3 ≠ [] ∧ ∀ c ∈ d3, isDigitC c) ∧ (d4 ≠ [] ∧ ∀ c ∈ d4, isDigitC c)) :=
  claim_C6_theorem sampleLine ['2']
    ['0', 'x', '0', '0', '0', '0', 'c', '7', '7', 'd', ':', '0']
    ['2', ':', '0', ':', '4', '0', '4', '8', ':', '4', '0', '4', '0'] (by rfl)

/-- The error-code shape the specification claims for the second
field: a (nonempty) hexadecimal error code after `0x`, optionally
followed by a colon and a (nonempty) numeric sub-index. -/
def specErrorCodeShape (s : List Char) : Prop :=
  ∃ hx : List Char, hx ≠ [] ∧ (∀ c ∈ hx, isHexC c) ∧
    (s = '0' :: 'x' :: hx ∨
      ∃ ix : List Char, ix ≠ [] ∧ (∀ c ∈ ix, isDigitC c) ∧ s = '0' :: 'x' :: (hx ++ ':' :: ix))

/-- Claim C6 fails as stated: on `oddLine` the matcher succeeds, yet
the captured error-code field `0x::` contains no hexadecimal digit at
all, so it is not a hex error code with an optional sub-index. -/
theorem claim_C6_counterexample :
    parseGPUDriverError testHandler oddLine = some oddEvent ∧
    ¬ specErrorCodeShape oddEvent.errorCode.data := by
  refine ⟨by rfl, ?_⟩
  show ¬ specErrorCodeShape ['0', 'x', ':', ':']
  rintro ⟨hx, hne, hhex, hca | ⟨ix, hixne, hixdig, hca⟩⟩
  · have h2 : ([':', ':'] : List Char) = hx := by
      simpa using hca
    have : isHexC ':' = true := hhex ':' (by rw [← h2]; simp)
    simp [isHexC, isDigitC] at this
  · have h2 : ([':', ':'] : List Char) = hx ++ ':' :: ix := by
      simpa using hca
    cases hx with
    | nil => exact hne rfl
    | cons c hx' =>
      have hc : c = ':' := by
        have := congrArg (fun l => l.head?) h2
        simpa using this.symm
      have : isHexC ':' = true := hc ▸ hhex c (by simp)
      simp [isHexC, isDigitC] at this


end GpuDriver
